import Mathlib

set_option maxRecDepth 8000

/-!
Shallow embedding of the hand_mouse repository (config.py, gesture_detector.py,
mouse_controller.py, main.py).  Distances, timestamps and coordinates are
modelled as rationals; the per-frame gesture state machine is explicit state
passing over `GestureState`, and the pointer mapper over `MouseState`.
-/

namespace HandMouse

/-- Configuration constants from config.py. -/
def CLICK_COOLDOWN : ℚ := 15 / 100

/-- Scroll cooldown from config.py. -/
def SCROLL_COOLDOWN : ℚ := 5 / 100

/-- Pinch threshold from config.py. -/
def PINCH_THRESHOLD : ℚ := 5 / 100

/-- Fist threshold from config.py. -/
def FIST_THRESHOLD : ℚ := 8 / 100

/-- Swipe threshold from config.py. -/
def SWIPE_THRESHOLD : ℚ := 4 / 100

/-- Smoothing factor from config.py. -/
def SMOOTH_FACTOR : ℚ := 1 / 2

/-- Edge padding from config.py. -/
def SCREEN_PADDING : ℚ := 50

/-- Frame width from config.py (used by main.py when dispatching commands). -/
def FRAME_WIDTH : ℚ := 640

/-- Frame height from config.py. -/
def FRAME_HEIGHT : ℚ := 480

/-- Derived pairwise distances of one frame (the FeatureSet of the spec):
fingertip-to-palm distances and the thumb-to-index distance, as computed by
GestureDetector.calculate_distance on landmark positions. -/
structure FeatureSet where
  thumbPalm : ℚ
  indexPalm : ℚ
  middlePalm : ℚ
  ringPalm : ℚ
  pinkyPalm : ℚ
  thumbIndex : ℚ
deriving DecidableEq

/-- Embedding of GestureDetector.detect_pinch: thumb-index distance below the
pinch threshold, ignoring every other finger. -/
def detect_pinch (fs : FeatureSet) : Bool :=
  decide (fs.thumbIndex < PINCH_THRESHOLD)

/-- Embedding of GestureDetector.detect_only_index_up. -/
def detect_only_index_up (fs : FeatureSet) : Bool :=
  decide (fs.indexPalm > 14 / 100 ∧ fs.middlePalm < 12 / 100 ∧
    fs.ringPalm < 12 / 100 ∧ fs.pinkyPalm < 12 / 100)

/-- Embedding of GestureDetector.detect_thumb_index_open. -/
def detect_thumb_index_open (fs : FeatureSet) : Bool :=
  decide ((fs.thumbPalm > 12 / 100 ∧ fs.indexPalm > 15 / 100) ∧
    fs.thumbIndex > PINCH_THRESHOLD)

/-- Embedding of GestureDetector.detect_open_hand. -/
def detect_open_hand (fs : FeatureSet) : Bool :=
  decide (fs.thumbPalm > 13 / 100 ∧ fs.indexPalm > 15 / 100 ∧
    fs.middlePalm > 14 / 100 ∧ fs.ringPalm > 14 / 100 ∧ fs.pinkyPalm > 14 / 100)

/-- Embedding of GestureDetector.detect_fist: mean and max of the five
fingertip-palm distances against the fist threshold, with tighter bounds on
thumb and index. -/
def detect_fist (fs : FeatureSet) : Bool :=
  decide ((fs.thumbPalm + fs.indexPalm + fs.middlePalm + fs.ringPalm + fs.pinkyPalm) / 5
      < FIST_THRESHOLD ∧
    max (max (max (max fs.thumbPalm fs.indexPalm) fs.middlePalm) fs.ringPalm) fs.pinkyPalm
      < FIST_THRESHOLD * 2 ∧
    fs.thumbPalm < 10 / 100 ∧ fs.indexPalm < 10 / 100)

/-- Scroll direction token carried by a scroll command. -/
inductive ScrollDir where
  | up
  | down
deriving DecidableEq

/-- Commands emitted by GestureDetector.recognize_gesture (the type and data
fields of the returned dictionary). -/
inductive Command where
  | none
  | left_press
  | left_hold
  | pinch_drag (x y : ℚ)
  | left_release
  | right_click
  | move (x y : ℚ)
  | scroll (d : ScrollDir)
deriving DecidableEq

/-- Mutable per-session fields of GestureDetector that the recognizer reads or
writes (the GestureSession of the spec). -/
structure GestureState where
  prev_open_hand_y : Option ℚ
  last_click_time : ℚ
  last_right_click_time : ℚ
  last_scroll_time : ℚ
  is_pinching : Bool
  pinch_start_time : ℚ
deriving DecidableEq

/-- Per-frame input when a hand is detected: the current timestamp, the
feature set, the normalized index-tip and palm landmark coordinates, and the
frame dimensions. -/
structure Frame where
  t : ℚ
  fs : FeatureSet
  indexX : ℚ
  indexY : ℚ
  palmY : ℚ
  frameW : ℚ
  frameH : ℚ
deriving DecidableEq

/-- One frame of input to recognize_gesture: either no hand was detected, or a
hand with its features and positions. -/
inductive FrameInput where
  | noHand
  | hand (f : Frame)
deriving DecidableEq

/-- Embedding of GestureDetector.get_index_position. -/
def get_index_position (f : Frame) : ℚ × ℚ :=
  (f.indexX * f.frameW, f.indexY * f.frameH)

/-- Embedding of GestureDetector.detect_open_hand_swipe, returning the swipe
result together with the updated state (the method mutates
prev_open_hand_y). -/
def detect_open_hand_swipe (s : GestureState) (f : Frame) :
    Option ScrollDir × GestureState :=
  if detect_open_hand f.fs then
    let current_y := f.palmY * f.frameH
    match s.prev_open_hand_y with
    | Option.none => (Option.none, { s with prev_open_hand_y := some current_y })
    | some prev_y =>
      let y_diff := prev_y - current_y
      let threshold := f.frameH * SWIPE_THRESHOLD
      if y_diff > threshold then
        (some ScrollDir.down, { s with prev_open_hand_y := some current_y })
      else if y_diff < -threshold then
        (some ScrollDir.up, { s with prev_open_hand_y := some current_y })
      else
        (Option.none, s)
  else
    (Option.none, { s with prev_open_hand_y := Option.none })

/-- Lines 520-534 of gesture_detector.py: the tail of the duplicated region
(fist check, index-only check, final Idle return). -/
def deadTail (s : GestureState) (f : Frame) : Command × GestureState :=
  if detect_fist f.fs then
    if f.t - s.last_right_click_time > CLICK_COOLDOWN then
      (Command.right_click, { s with last_right_click_time := f.t })
    else
      (Command.none, s)
  else if detect_only_index_up f.fs then
    (Command.move (get_index_position f).1 (get_index_position f).2, s)
  else
    (Command.none, s)

/-- Lines 462-518 of gesture_detector.py: the duplicated branch that applies
pinch-press logic under a detect_open_hand guard, then falls into the tail. -/
def deadOpenHandPinch (s : GestureState) (f : Frame) : Command × GestureState :=
  if detect_open_hand f.fs then
    if !s.is_pinching then
      if f.t - s.last_click_time > CLICK_COOLDOWN then
        (Command.left_press,
          { s with is_pinching := true, pinch_start_time := f.t, last_click_time := f.t })
      else
        deadTail s f
    else
      if f.t - s.pinch_start_time > 1 then
        (Command.pinch_drag (get_index_position f).1 (get_index_position f).2, s)
      else
        (Command.left_hold, s)
  else
    if s.is_pinching then
      (Command.left_release, { s with is_pinching := false })
    else
      deadTail s f

/-- Lines 428-460 of gesture_detector.py: duplicated fist, index-only and
thumb-index-open checks. -/
def deadFist (s : GestureState) (f : Frame) : Command × GestureState :=
  if detect_fist f.fs then
    if f.t - s.last_right_click_time > CLICK_COOLDOWN then
      (Command.right_click, { s with last_right_click_time := f.t })
    else
      (Command.none, s)
  else if detect_only_index_up f.fs then
    (Command.move (get_index_position f).1 (get_index_position f).2, s)
  else if detect_thumb_index_open f.fs then
    (Command.none, s)
  else
    deadOpenHandPinch s f

/-- Lines 386-426 of gesture_detector.py: duplicated pinch block. -/
def deadPinch (s : GestureState) (f : Frame) : Command × GestureState :=
  if detect_pinch f.fs then
    if !s.is_pinching then
      if f.t - s.last_click_time > CLICK_COOLDOWN then
        (Command.left_press,
          { s with is_pinching := true, pinch_start_time := f.t, last_click_time := f.t })
      else
        deadFist s f
    else
      if f.t - s.pinch_start_time > 1 then
        (Command.pinch_drag (get_index_position f).1 (get_index_position f).2, s)
      else
        (Command.left_hold, s)
  else
    if s.is_pinching then
      (Command.left_release, { s with is_pinching := false })
    else
      deadFist s f

/-- Lines 378-534 of gesture_detector.py: everything after the first-pass
open-hand branch (the duplicated gesture checks). -/
def afterOpenHand (s : GestureState) (f : Frame) : Command × GestureState :=
  if detect_thumb_index_open f.fs then
    (Command.none, s)
  else
    deadPinch s f

/-- Lines 353-376 of gesture_detector.py: the first-pass open-hand scroll
branch; detect_open_hand_swipe is invoked first (mutating prev_open_hand_y),
then the scroll cooldown is checked. -/
def openHandScroll (s : GestureState) (f : Frame) : Command × GestureState :=
  let r := detect_open_hand_swipe s f
  match r.1 with
  | some d =>
    if f.t - r.2.last_scroll_time > SCROLL_COOLDOWN then
      (Command.scroll d, { r.2 with last_scroll_time := f.t })
    else
      (Command.none, r.2)
  | Option.none => (Command.none, r.2)

/-- Lines 319-376 of gesture_detector.py: first-pass fist, index-only,
thumb-index-open and open-hand checks, falling into the duplicated region. -/
def afterPinch (s : GestureState) (f : Frame) : Command × GestureState :=
  if detect_fist f.fs then
    if f.t - s.last_right_click_time > CLICK_COOLDOWN then
      (Command.right_click, { s with last_right_click_time := f.t })
    else
      (Command.none, s)
  else if detect_only_index_up f.fs then
    (Command.move (get_index_position f).1 (get_index_position f).2, s)
  else if detect_thumb_index_open f.fs then
    (Command.none, s)
  else if detect_open_hand f.fs then
    openHandScroll s f
  else
    afterOpenHand s f

/-- Lines 277-317 of gesture_detector.py: the first-pass pinch block.  A new
pinch blocked by the click cooldown, and a non-pinch frame with no active
pinch, fall through to the remaining checks. -/
def recognizeHand (s : GestureState) (f : Frame) : Command × GestureState :=
  if detect_pinch f.fs then
    if !s.is_pinching then
      if f.t - s.last_click_time > CLICK_COOLDOWN then
        (Command.left_press,
          { s with is_pinching := true, pinch_start_time := f.t, last_click_time := f.t })
      else
        afterPinch s f
    else
      if f.t - s.pinch_start_time > 1 then
        (Command.pinch_drag (get_index_position f).1 (get_index_position f).2, s)
      else
        (Command.left_hold, s)
  else
    if s.is_pinching then
      (Command.left_release, { s with is_pinching := false })
    else
      afterPinch s f

/-- Embedding of GestureDetector.recognize_gesture: the no-hand branch resets
prev_open_hand_y and is_pinching and returns a none command; otherwise the
hand frame is processed. -/
def recognize_gesture (s : GestureState) (inp : FrameInput) : Command × GestureState :=
  match inp with
  | FrameInput.noHand =>
    (Command.none, { s with prev_open_hand_y := Option.none, is_pinching := false })
  | FrameInput.hand f => recognizeHand s f

/-- Folding recognize_gesture over a list of frame inputs, collecting the
emitted commands and the final state. -/
def runGesture (s : GestureState) : List FrameInput → List Command × GestureState
  | [] => ([], s)
  | i :: rest =>
    let r := recognize_gesture s i
    let rr := runGesture r.2 rest
    (r.1 :: rr.1, rr.2)

/-- Canonical single first-pass decision chain following the ordered decision
table of the spec (pinch, fist, index-only, thumb-index-open, open-hand swipe,
idle), with no duplicated second region: the fall-through after the open-hand
check goes directly to the Idle result. -/
def firstPassAfterPinch (s : GestureState) (f : Frame) : Command × GestureState :=
  if detect_fist f.fs then
    if f.t - s.last_right_click_time > CLICK_COOLDOWN then
      (Command.right_click, { s with last_right_click_time := f.t })
    else
      (Command.none, s)
  else if detect_only_index_up f.fs then
    (Command.move (get_index_position f).1 (get_index_position f).2, s)
  else if detect_thumb_index_open f.fs then
    (Command.none, s)
  else if detect_open_hand f.fs then
    openHandScroll s f
  else
    (Command.none, s)

/-- First-pass pinch block of the canonical chain. -/
def firstPassHand (s : GestureState) (f : Frame) : Command × GestureState :=
  if detect_pinch f.fs then
    if !s.is_pinching then
      if f.t - s.last_click_time > CLICK_COOLDOWN then
        (Command.left_press,
          { s with is_pinching := true, pinch_start_time := f.t, last_click_time := f.t })
      else
        firstPassAfterPinch s f
    else
      if f.t - s.pinch_start_time > 1 then
        (Command.pinch_drag (get_index_position f).1 (get_index_position f).2, s)
      else
        (Command.left_hold, s)
  else
    if s.is_pinching then
      (Command.left_release, { s with is_pinching := false })
    else
      firstPassAfterPinch s f

/-- Canonical first-pass recognizer over frame inputs. -/
def firstPass (s : GestureState) (inp : FrameInput) : Command × GestureState :=
  match inp with
  | FrameInput.noHand =>
    (Command.none, { s with prev_open_hand_y := Option.none, is_pinching := false })
  | FrameInput.hand f => firstPassHand s f

/-- Smoothing and screen-mapping state of MouseController (mouse_controller.py). -/
structure MouseState where
  screen_width : ℚ
  screen_height : ℚ
  prev_mouse_x : Option ℚ
  prev_mouse_y : Option ℚ
deriving DecidableEq

/-- Derived horizontal mapping range of MouseController. -/
def map_width (m : MouseState) : ℚ := m.screen_width - 2 * SCREEN_PADDING

/-- Derived vertical mapping range of MouseController. -/
def map_height (m : MouseState) : ℚ := m.screen_height - 2 * SCREEN_PADDING

/-- Embedding of MouseController.map_coordinates.  The clamped value is
nonnegative, so the int conversion of the source is the floor. -/
def map_coordinates (m : MouseState) (hand_x hand_y frame_width frame_height : ℚ) :
    ℤ × ℤ :=
  let norm_x := hand_x / frame_width
  let norm_y := hand_y / frame_height
  let screen_x := SCREEN_PADDING + norm_x * map_width m
  let screen_y := SCREEN_PADDING + norm_y * map_height m
  let cx := max 0 (min (m.screen_width - 1) screen_x)
  let cy := max 0 (min (m.screen_height - 1) screen_y)
  (⌊cx⌋, ⌊cy⌋)

/-- Embedding of MouseController.smooth_coordinates: on the first call the
fresh sample is returned and stored unchanged, afterwards the exponential
average is stored as the new previous value and returned floored. -/
def smooth_coordinates (m : MouseState) (current_x current_y : ℚ) :
    (ℚ × ℚ) × MouseState :=
  match m.prev_mouse_x, m.prev_mouse_y with
  | some px, some py =>
    let smooth_x := SMOOTH_FACTOR * px + (1 - SMOOTH_FACTOR) * current_x
    let smooth_y := SMOOTH_FACTOR * py + (1 - SMOOTH_FACTOR) * current_y
    (((⌊smooth_x⌋ : ℤ), (⌊smooth_y⌋ : ℤ)),
      { m with prev_mouse_x := some smooth_x, prev_mouse_y := some smooth_y })
  | _, _ =>
    ((current_x, current_y),
      { m with prev_mouse_x := some current_x, prev_mouse_y := some current_y })

/-- Embedding of MouseController.move_mouse: map then smooth, returning the
pointer target actually used. -/
def move_mouse (m : MouseState) (hand_x hand_y frame_width frame_height : ℚ) :
    (ℚ × ℚ) × MouseState :=
  let p := map_coordinates m hand_x hand_y frame_width frame_height
  smooth_coordinates m (p.1 : ℚ) (p.2 : ℚ)

/-- Embedding of MouseController.reset_smoothing. -/
def reset_smoothing (m : MouseState) : MouseState :=
  { m with prev_mouse_x := Option.none, prev_mouse_y := Option.none }

/-- State effect of MouseController.execute_gesture: only move and pinch_drag
reach move_mouse; every other command leaves the smoothing state alone. -/
def execute_gesture (m : MouseState) (c : Command) (fw fh : ℚ) : MouseState :=
  match c with
  | Command.move x y => (move_mouse m x y fw fh).2
  | Command.pinch_drag x y => (move_mouse m x y fw fh).2
  | _ => m

/-- Per-frame mouse handling of main.py (lines 100-115): a none command resets
the smoothing state, any other command is dispatched to execute_gesture with
the configured frame dimensions. -/
def mainLoopMouseStep (m : MouseState) (c : Command) : MouseState :=
  match c with
  | Command.none => reset_smoothing m
  | c => execute_gesture m c FRAME_WIDTH FRAME_HEIGHT

/-- Helper: under the conditions that actually hold whenever control reaches
the duplicated region inside recognize_gesture, that region returns the Idle
result and leaves the state untouched. -/
lemma afterOpenHand_eq_idle (s : GestureState) (f : Frame)
    (hnp : s.is_pinching = false)
    (hpc : detect_pinch f.fs = true → ¬(f.t - s.last_click_time > CLICK_COOLDOWN))
    (hfi : detect_fist f.fs = false)
    (hio : detect_only_index_up f.fs = false)
    (hto : detect_thumb_index_open f.fs = false)
    (hoh : detect_open_hand f.fs = false) :
    afterOpenHand s f = (Command.none, s) := by
  unfold afterOpenHand deadPinch deadFist deadOpenHandPinch deadTail
  cases hdp : detect_pinch f.fs with
  | false => simp [hnp, hfi, hio, hto, hoh]
  | true => simp [hnp, hfi, hio, hto, hoh, hpc hdp]

/-- Helper: the first-pass chain after the pinch block agrees with the
canonical chain whenever the fall-through context of the pinch block holds. -/
lemma afterPinch_eq_firstPass (s : GestureState) (f : Frame)
    (hnp : s.is_pinching = false)
    (hpc : detect_pinch f.fs = true → ¬(f.t - s.last_click_time > CLICK_COOLDOWN)) :
    afterPinch s f = firstPassAfterPinch s f := by
  unfold afterPinch firstPassAfterPinch
  cases hfi : detect_fist f.fs with
  | true => simp [hfi]
  | false =>
    cases hio : detect_only_index_up f.fs with
    | true => simp [hfi, hio]
    | false =>
      cases hto : detect_thumb_index_open f.fs with
      | true => simp [hfi, hio, hto]
      | false =>
        cases hoh : detect_open_hand f.fs with
        | true => simp [hfi, hio, hto, hoh]
        | false =>
          simp only [hfi, hio, hto, hoh, Bool.false_eq_true, if_false]
          exact afterOpenHand_eq_idle s f hnp hpc hfi hio hto hoh

/-- Helper: recognize_gesture agrees with the canonical first-pass chain on
every input and state. -/
lemma recognize_eq_firstPass (s : GestureState) (inp : FrameInput) :
    recognize_gesture s inp = firstPass s inp := by
  cases inp with
  | noHand => rfl
  | hand f =>
    show recognizeHand s f = firstPassHand s f
    unfold recognizeHand firstPassHand
    cases hdp : detect_pinch f.fs with
    | true =>
      cases hip : s.is_pinching with
      | true => simp [hip]
      | false =>
        by_cases hcool : f.t - s.last_click_time > CLICK_COOLDOWN
        · simp [hip, hcool]
        · simpa [hip, hcool] using
            afterPinch_eq_firstPass s f hip (fun _ => hcool)
    | false =>
      cases hip : s.is_pinching with
      | true => simp [hip]
      | false =>
        simpa [hip] using
          afterPinch_eq_firstPass s f hip (fun h => absurd h (by simp [hdp]))

/-- C8: for every session state and frame input, recognize_gesture returns the
same command and the same session-state update as the single first-pass
ordered decision chain (pinch, fist, index-only, thumb-index-open, open-hand
swipe, idle); the duplicated later gesture-check blocks never return a command
or mutate state. -/
theorem dead_code_equivalence (s : GestureState) (inp : FrameInput) :
    recognize_gesture s inp = firstPass s inp :=
  recognize_eq_firstPass s inp

/-- Session state right after a left press at time t: pinchActive set,
pinchStartTime and lastLeftClickTime refreshed. -/
def pressedState (s : GestureState) (t : ℚ) : GestureState :=
  { s with is_pinching := true, pinch_start_time := t, last_click_time := t }

/-- C1: pinch lifecycle.  With no cooldown pending, the first Pinch frame
emits LeftPress and moves to the pressed state; from the pressed state every
Pinch frame within 1.0 second of the press emits LeftHold, every Pinch frame
beyond 1.0 second emits Drag at the current index fingertip position, and the
first non-Pinch frame emits LeftRelease and clears pinchActive, identically
from the held and the dragging phase. -/
theorem pinch_lifecycle (s0 : GestureState) (f0 : Frame)
    (hp0 : detect_pinch f0.fs = true) (hnp : s0.is_pinching = false)
    (hcool : f0.t - s0.last_click_time > CLICK_COOLDOWN) :
    recognize_gesture s0 (FrameInput.hand f0) =
      (Command.left_press, pressedState s0 f0.t) ∧
    (∀ f : Frame, detect_pinch f.fs = true → 0 < f.t - f0.t → f.t - f0.t ≤ 1 →
      recognize_gesture (pressedState s0 f0.t) (FrameInput.hand f) =
        (Command.left_hold, pressedState s0 f0.t)) ∧
    (∀ f : Frame, detect_pinch f.fs = true → f.t - f0.t > 1 →
      recognize_gesture (pressedState s0 f0.t) (FrameInput.hand f) =
        (Command.pinch_drag (f.indexX * f.frameW) (f.indexY * f.frameH),
          pressedState s0 f0.t)) ∧
    (∀ f : Frame, detect_pinch f.fs = false →
      recognize_gesture (pressedState s0 f0.t) (FrameInput.hand f) =
        (Command.left_release, { pressedState s0 f0.t with is_pinching := false })) := by
  refine ⟨?_, ?_, ?_, ?_⟩
  · show recognizeHand s0 f0 = _
    unfold recognizeHand
    simp [hp0, hnp, hcool, pressedState]
  · intro f hpf h0 h1
    show recognizeHand (pressedState s0 f0.t) f = _
    unfold recognizeHand
    simp [hpf, pressedState, not_lt.2 h1]
  · intro f hpf h1
    show recognizeHand (pressedState s0 f0.t) f = _
    unfold recognizeHand
    simp [hpf, pressedState, h1, get_index_position]
  · intro f hpf
    show recognizeHand (pressedState s0 f0.t) f = _
    unfold recognizeHand
    simp [hpf, pressedState]

/-- Feature set of a pinched hand (thumb-index distance three hundredths). -/
def fsPinchW : FeatureSet :=
  { thumbPalm := 2 / 10, indexPalm := 2 / 10, middlePalm := 2 / 10,
    ringPalm := 2 / 10, pinkyPalm := 2 / 10, thumbIndex := 3 / 100 }

/-- Feature set matching none of the detectors. -/
def fsIdleW : FeatureSet :=
  { thumbPalm := 11 / 100, indexPalm := 11 / 100, middlePalm := 11 / 100,
    ringPalm := 11 / 100, pinkyPalm := 11 / 100, thumbIndex := 11 / 100 }

/-- Fresh session state with all timers at zero. -/
def sInit : GestureState :=
  { prev_open_hand_y := Option.none, last_click_time := 0,
    last_right_click_time := 0, last_scroll_time := 0,
    is_pinching := false, pinch_start_time := 0 }

/-- Pinch frame at time ten. -/
def fW0 : Frame :=
  { t := 10, fs := fsPinchW, indexX := 1 / 2, indexY := 1 / 2,
    palmY := 1 / 2, frameW := 640, frameH := 480 }

/-- Pinch frame half a second later. -/
def fW1 : Frame := { fW0 with t := 105 / 10 }

/-- Pinch frame two seconds later. -/
def fW2 : Frame := { fW0 with t := 12 }

/-- Idle frame ending the pinch run. -/
def fW3 : Frame := { fW0 with t := 13, fs := fsIdleW }

/-- Witness for the pinch lifecycle at a concrete frame sequence. -/
theorem pinch_lifecycle_witness :
    recognize_gesture sInit (FrameInput.hand fW0) =
      (Command.left_press, pressedState sInit 10) ∧
    recognize_gesture (pressedState sInit 10) (FrameInput.hand fW1) =
      (Command.left_hold, pressedState sInit 10) ∧
    recognize_gesture (pressedState sInit 10) (FrameInput.hand fW2) =
      (Command.pinch_drag (fW2.indexX * fW2.frameW) (fW2.indexY * fW2.frameH),
        pressedState sInit 10) ∧
    recognize_gesture (pressedState sInit 10) (FrameInput.hand fW3) =
      (Command.left_release, { pressedState sInit 10 with is_pinching := false }) := by
  have h := pinch_lifecycle sInit fW0 (by with_unfolding_all decide)
    (by with_unfolding_all decide) (by with_unfolding_all decide)
  exact ⟨h.1, h.2.1 fW1 (by with_unfolding_all decide) (by with_unfolding_all decide)
      (by with_unfolding_all decide),
    h.2.2.1 fW2 (by with_unfolding_all decide) (by with_unfolding_all decide),
    h.2.2.2 fW3 (by with_unfolding_all decide)⟩

/-- C2 (amended): detect_pinch depends only on the thumb-index distance, and a
frame whose thumb-index distance is below the pinch threshold is handled by
the pinch branch whenever a pinch is already active or the click cooldown has
elapsed; the emitted command is then a pinch-lifecycle command determined by
the pinch sub-state, never RightClick. -/
theorem pinch_priority (s : GestureState) (f : Frame)
    (hp : detect_pinch f.fs = true)
    (hready : s.is_pinching = true ∨ f.t - s.last_click_time > CLICK_COOLDOWN) :
    (∀ fs2 : FeatureSet, fs2.thumbIndex = f.fs.thumbIndex → detect_pinch fs2 = true) ∧
    (recognize_gesture s (FrameInput.hand f)).1 =
      (if s.is_pinching then
        (if f.t - s.pinch_start_time > 1 then
          Command.pinch_drag (f.indexX * f.frameW) (f.indexY * f.frameH)
        else Command.left_hold)
      else Command.left_press) := by
  constructor
  · intro fs2 h2
    unfold detect_pinch at hp ⊢
    rw [h2]
    exact hp
  · show (recognizeHand s f).1 = _
    unfold recognizeHand
    cases hip : s.is_pinching with
    | true =>
      by_cases hd : f.t - s.pinch_start_time > 1 <;>
        simp [hp, hip, hd, get_index_position]
    | false =>
      rcases hready with h | h
      · rw [hip] at h
        exact absurd h (by simp)
      · simp [hp, hip, h]

/-- Feature set meeting both the pinch and the fist criteria. -/
def fsPinchFist : FeatureSet :=
  { thumbPalm := 5 / 100, indexPalm := 5 / 100, middlePalm := 5 / 100,
    ringPalm := 5 / 100, pinkyPalm := 5 / 100, thumbIndex := 3 / 100 }

/-- Session state whose click cooldown is still pending at time ten. -/
def sClickPending : GestureState :=
  { prev_open_hand_y := Option.none, last_click_time := 10,
    last_right_click_time := 0, last_scroll_time := 0,
    is_pinching := false, pinch_start_time := 0 }

/-- Frame at time ten whose features satisfy both pinch and fist. -/
def fPinchFist : Frame :=
  { t := 10, fs := fsPinchFist, indexX := 1 / 2, indexY := 1 / 2,
    palmY := 1 / 2, frameW := 640, frameH := 480 }

/-- Counterexample to C2 as stated: a feature set satisfying both the pinch
and the fist criteria emits RightClick when a new pinch is blocked by the
click cooldown, so a pinching frame is not treated as Pinch for all session
states and timestamps. -/
theorem pinch_priority_cex :
    detect_pinch fPinchFist.fs = true ∧ detect_fist fPinchFist.fs = true ∧
    (recognize_gesture sClickPending (FrameInput.hand fPinchFist)).1 =
      Command.right_click := by
  with_unfolding_all decide

/-- Witness for the amended pinch priority at a concrete pinch frame. -/
theorem pinch_priority_witness :
    (recognize_gesture sInit (FrameInput.hand fW0)).1 = Command.left_press := by
  have h := pinch_priority sInit fW0 (by with_unfolding_all decide)
    (Or.inr (by with_unfolding_all decide))
  simpa [sInit] using h.2

/-- Helper: detect_open_hand_swipe only ever writes prev_open_hand_y. -/
lemma detect_open_hand_swipe_spec (s : GestureState) (f : Frame) :
    ∃ p : Option ℚ, (detect_open_hand_swipe s f).2 = { s with prev_open_hand_y := p } := by
  unfold detect_open_hand_swipe
  cases h : detect_open_hand f.fs with
  | false => exact ⟨Option.none, by simp [h]⟩
  | true =>
    rcases hp : s.prev_open_hand_y with _ | y
    · exact ⟨some (f.palmY * f.frameH), by simp [h, hp]⟩
    · by_cases h1 : y - f.palmY * f.frameH > f.frameH * SWIPE_THRESHOLD
      · exact ⟨some (f.palmY * f.frameH), by simp [h, hp, h1]⟩
      · by_cases h2 : y - f.palmY * f.frameH < -(f.frameH * SWIPE_THRESHOLD)
        · exact ⟨some (f.palmY * f.frameH), by simp [h, hp, h1, h2]⟩
        · refine ⟨s.prev_open_hand_y, ?_⟩
          simp [h, hp, h1, h2]
          rw [← hp]

/-- Helper: the open-hand scroll branch only ever writes prev_open_hand_y and
last_scroll_time. -/
lemma openHandScroll_spec (s : GestureState) (f : Frame) :
    ∃ (p : Option ℚ) (ts : ℚ), (openHandScroll s f).2 =
      { s with prev_open_hand_y := p, last_scroll_time := ts } := by
  obtain ⟨p, hp⟩ := detect_open_hand_swipe_spec s f
  unfold openHandScroll
  rcases hr : (detect_open_hand_swipe s f).1 with _ | d
  · refine ⟨p, s.last_scroll_time, ?_⟩
    simp only [hr, hp]
  · by_cases hc : f.t - (detect_open_hand_swipe s f).2.last_scroll_time > SCROLL_COOLDOWN
    · refine ⟨p, f.t, ?_⟩
      simp only [hr]
      rw [if_pos hc]
      simp [hp]
    · refine ⟨p, s.last_scroll_time, ?_⟩
      simp only [hr]
      rw [if_neg hc]
      simp [hp]

/-- Helper: the canonical chain after the pinch block never changes
is_pinching. -/
lemma firstPassAfterPinch_is_pinching (s : GestureState) (f : Frame) :
    ((firstPassAfterPinch s f).2).is_pinching = s.is_pinching := by
  unfold firstPassAfterPinch
  obtain ⟨p, ts, hs⟩ := openHandScroll_spec s f
  split_ifs <;> simp [hs]

/-- C3 (amended): on hand frames the pinch flag moves false to true only with
LeftPress and true to false only with LeftRelease, so pinchActive brackets a
press/release pair while the hand stays visible; a no-hand frame instead
clears pinchActive silently with a none command (no LeftRelease is emitted),
together with the swipe reference. -/
theorem pinch_active_invariant :
    (∀ (s : GestureState) (f : Frame), s.is_pinching = true →
      ((recognize_gesture s (FrameInput.hand f)).2).is_pinching = false →
      (recognize_gesture s (FrameInput.hand f)).1 = Command.left_release) ∧
    (∀ (s : GestureState) (f : Frame), s.is_pinching = false →
      ((recognize_gesture s (FrameInput.hand f)).2).is_pinching = true →
      (recognize_gesture s (FrameInput.hand f)).1 = Command.left_press) ∧
    (∀ s : GestureState, recognize_gesture s FrameInput.noHand =
      (Command.none, { s with prev_open_hand_y := Option.none, is_pinching := false })) := by
  refine ⟨?_, ?_, fun s => rfl⟩
  · intro s f h1 h2
    rw [recognize_eq_firstPass] at h2 ⊢
    show (firstPassHand s f).1 = _
    change (firstPassHand s f).2.is_pinching = false at h2
    unfold firstPassHand at h2 ⊢
    cases hdp : detect_pinch f.fs with
    | true =>
      by_cases hd : f.t - s.pinch_start_time > 1 <;>
        simp [hdp, h1, hd] at h2
    | false => simp [hdp, h1]
  · intro s f h1 h2
    rw [recognize_eq_firstPass] at h2 ⊢
    show (firstPassHand s f).1 = _
    change (firstPassHand s f).2.is_pinching = true at h2
    unfold firstPassHand at h2 ⊢
    cases hdp : detect_pinch f.fs with
    | true =>
      by_cases hc : f.t - s.last_click_time > CLICK_COOLDOWN
      · simp [hdp, h1, hc]
      · simp [hdp, h1, hc, firstPassAfterPinch_is_pinching] at h2
    | false => simp [hdp, h1, firstPassAfterPinch_is_pinching] at h2

/-- Helper: the session state sPinchOn carried by C3 material: pinch active
since time five, swipe reference held at one hundred. -/
def sRefHeld : GestureState :=
  { prev_open_hand_y := some 100, last_click_time := 0,
    last_right_click_time := 0, last_scroll_time := 0,
    is_pinching := true, pinch_start_time := 5 }

/-- Counterexample to C3 as stated: on a no-hand frame with pinchActive true
the session clears pinchActive while emitting a none command, so the frame
that ends the press does not emit LeftRelease when the hand disappears. -/
theorem pinch_active_invariant_cex :
    sRefHeld.is_pinching = true ∧
    (recognize_gesture sRefHeld FrameInput.noHand).1 = Command.none ∧
    ((recognize_gesture sRefHeld FrameInput.noHand).2).is_pinching = false := by
  with_unfolding_all decide

/-- Witness for the amended pinch invariant: a concrete release frame and a
concrete no-hand reset. -/
theorem pinch_active_invariant_witness :
    (recognize_gesture (pressedState sInit 10) (FrameInput.hand fW3)).1 =
      Command.left_release ∧
    recognize_gesture sRefHeld FrameInput.noHand =
      (Command.none, { sRefHeld with prev_open_hand_y := Option.none, is_pinching := false }) := by
  have h := pinch_active_invariant
  exact ⟨h.1 (pressedState sInit 10) fW3 (by with_unfolding_all decide)
      (by with_unfolding_all decide),
    h.2.2 sRefHeld⟩

/-- Helper: when the open-hand detector fires, detect_open_hand_swipe always
leaves a defined reference behind. -/
lemma detect_open_hand_swipe_prev (s : GestureState) (f : Frame)
    (h : detect_open_hand f.fs = true) :
    ∃ y, ((detect_open_hand_swipe s f).2).prev_open_hand_y = some y := by
  unfold detect_open_hand_swipe
  rcases hp : s.prev_open_hand_y with _ | y
  · exact ⟨f.palmY * f.frameH, by simp [h, hp]⟩
  · by_cases h1 : y - f.palmY * f.frameH > f.frameH * SWIPE_THRESHOLD
    · exact ⟨f.palmY * f.frameH, by simp [h, hp, h1]⟩
    · by_cases h2 : y - f.palmY * f.frameH < -(f.frameH * SWIPE_THRESHOLD)
      · exact ⟨f.palmY * f.frameH, by simp [h, hp, h1, h2]⟩
      · exact ⟨y, by simp [h, hp, h1, h2]⟩

/-- Helper: the scroll branch reports the reference written by
detect_open_hand_swipe. -/
lemma openHandScroll_prev (s : GestureState) (f : Frame) :
    ((openHandScroll s f).2).prev_open_hand_y =
      ((detect_open_hand_swipe s f).2).prev_open_hand_y := by
  unfold openHandScroll
  rcases hr : (detect_open_hand_swipe s f).1 with _ | d
  · simp only [hr]
  · simp only [hr]
    by_cases hc : f.t - (detect_open_hand_swipe s f).2.last_scroll_time > SCROLL_COOLDOWN
    · rw [if_pos hc]
    · rw [if_neg hc]

/-- Helper: the canonical chain after the pinch block never clears a defined
swipe reference. -/
lemma firstPassAfterPinch_prev (s : GestureState) (f : Frame)
    (h : ((firstPassAfterPinch s f).2).prev_open_hand_y = Option.none) :
    s.prev_open_hand_y = Option.none := by
  unfold firstPassAfterPinch at h
  split_ifs at h with h1 h2 h3 h4 h5
  · exact h
  · exact h
  · exact h
  · exact h
  · rw [openHandScroll_prev] at h
    obtain ⟨y, hy⟩ := detect_open_hand_swipe_prev s f h5
    rw [hy] at h
    exact absurd h (by simp)
  · exact h

/-- Helper: hand frames never clear a defined swipe reference in the
canonical chain. -/
lemma firstPassHand_prev (s : GestureState) (f : Frame)
    (h : ((firstPassHand s f).2).prev_open_hand_y = Option.none) :
    s.prev_open_hand_y = Option.none := by
  unfold firstPassHand at h
  split_ifs at h <;> first
    | exact h
    | exact firstPassAfterPinch_prev s f h

/-- C6 (amended): openHandRefY is reset to absent by no-hand frames, and by
no hand-present frame at all: after a hand frame the reference is absent only
if it was already absent, so it persists unchanged across hand frames whose
pose is not OpenHand instead of being cleared (the clearing branch inside
detect_open_hand_swipe is unreachable because the call is guarded by the same
open-hand test). -/
theorem open_hand_ref_reset :
    (∀ s : GestureState,
      ((recognize_gesture s FrameInput.noHand).2).prev_open_hand_y = Option.none) ∧
    (∀ (s : GestureState) (f : Frame),
      ((recognize_gesture s (FrameInput.hand f)).2).prev_open_hand_y = Option.none →
      s.prev_open_hand_y = Option.none) := by
  refine ⟨fun s => rfl, ?_⟩
  intro s f h
  rw [recognize_eq_firstPass] at h
  exact firstPassHand_prev s f h

/-- Pinch frame with the other fingers curled, so that the open-hand detector
is false while the pinch is held. -/
def fsPinchCurl : FeatureSet :=
  { thumbPalm := 11 / 100, indexPalm := 16 / 100, middlePalm := 5 / 100,
    ringPalm := 5 / 100, pinkyPalm := 5 / 100, thumbIndex := 3 / 100 }

/-- Held-pinch frame one second after the press. -/
def fPinchHold : Frame :=
  { t := 6, fs := fsPinchCurl, indexX := 1 / 2, indexY := 1 / 2,
    palmY := 1 / 2, frameW := 640, frameH := 480 }

/-- Counterexample to C6 as stated: a hand frame whose pose is Pinch (not
OpenHand) leaves the swipe reference defined instead of resetting it. -/
theorem open_hand_ref_reset_cex :
    detect_open_hand fPinchHold.fs = false ∧
    detect_pinch fPinchHold.fs = true ∧
    ((recognize_gesture sRefHeld (FrameInput.hand fPinchHold)).2).prev_open_hand_y =
      some 100 := by
  with_unfolding_all decide

/-- Witness for the amended reference-reset invariant at concrete states. -/
theorem open_hand_ref_reset_witness :
    ((recognize_gesture sRefHeld FrameInput.noHand).2).prev_open_hand_y = Option.none ∧
    sInit.prev_open_hand_y = Option.none := by
  exact ⟨open_hand_ref_reset.1 sRefHeld,
    open_hand_ref_reset.2 sInit fW3 (by with_unfolding_all decide)⟩

/-- C4 (amended): on an OpenHand frame that reaches the scroll branch with a
defined reference, displacement delta equal to openHandRefY minus the current
palm Y, and the scroll cooldown elapsed, a delta beyond the threshold emits
Scroll(down), and a delta below minus the threshold emits Scroll(up): the
hand moving toward the viewer up (delta positive) produces a downward
scroll, the opposite of the up/down assignment in the claim. -/
theorem scroll_direction (s : GestureState) (f : Frame) (ry : ℚ)
    (hdp : detect_pinch f.fs = false) (hfi : detect_fist f.fs = false)
    (hio : detect_only_index_up f.fs = false)
    (hto : detect_thumb_index_open f.fs = false)
    (hoh : detect_open_hand f.fs = true) (hnp : s.is_pinching = false)
    (href : s.prev_open_hand_y = some ry) (hH : 0 < f.frameH)
    (hcool : f.t - s.last_scroll_time > SCROLL_COOLDOWN) :
    (ry - f.palmY * f.frameH > f.frameH * SWIPE_THRESHOLD →
      (recognize_gesture s (FrameInput.hand f)).1 = Command.scroll ScrollDir.down) ∧
    (ry - f.palmY * f.frameH < -(f.frameH * SWIPE_THRESHOLD) →
      (recognize_gesture s (FrameInput.hand f)).1 = Command.scroll ScrollDir.up) := by
  have hthr : 0 < f.frameH * SWIPE_THRESHOLD := by
    have hs : (0 : ℚ) < SWIPE_THRESHOLD := by norm_num [SWIPE_THRESHOLD]
    exact mul_pos hH hs
  constructor <;> intro hd
  · show (recognizeHand s f).1 = _
    unfold recognizeHand afterPinch openHandScroll detect_open_hand_swipe
    simp [hdp, hfi, hio, hto, hoh, hnp, href, hd, hcool]
  · have hnd : ¬(ry - f.palmY * f.frameH > f.frameH * SWIPE_THRESHOLD) := by
      intro hgt
      nlinarith
    show (recognizeHand s f).1 = _
    unfold recognizeHand afterPinch openHandScroll detect_open_hand_swipe
    simp [hdp, hfi, hio, hto, hoh, hnp, href, hd, hnd, hcool]

/-- Open-hand feature set at the boundary thumb-index distance (the only
distance at which a frame both escapes the pinch branch and fails the
thumb-index-open check while the hand is open). -/
def fsOpenEdge : FeatureSet :=
  { thumbPalm := 2 / 10, indexPalm := 2 / 10, middlePalm := 2 / 10,
    ringPalm := 2 / 10, pinkyPalm := 2 / 10, thumbIndex := 5 / 100 }

/-- Session state holding a swipe reference of one hundred, all timers clear. -/
def sScrollW : GestureState :=
  { prev_open_hand_y := some 100, last_click_time := 0,
    last_right_click_time := 0, last_scroll_time := 0,
    is_pinching := false, pinch_start_time := 0 }

/-- Open-hand frame whose palm has risen to pixel fifty. -/
def fScrollDown : Frame :=
  { t := 100, fs := fsOpenEdge, indexX := 1 / 2, indexY := 1 / 2,
    palmY := 50 / 480, frameW := 640, frameH := 480 }

/-- Counterexample to C4 as stated: a positive delta of fifty pixels beyond
the threshold with cooldown elapsed emits Scroll(down), not Scroll(up). -/
theorem scroll_direction_cex :
    detect_open_hand fScrollDown.fs = true ∧
    sScrollW.prev_open_hand_y = some 100 ∧
    (100 : ℚ) - fScrollDown.palmY * fScrollDown.frameH >
      fScrollDown.frameH * SWIPE_THRESHOLD ∧
    fScrollDown.t - sScrollW.last_scroll_time > SCROLL_COOLDOWN ∧
    (recognize_gesture sScrollW (FrameInput.hand fScrollDown)).1 =
      Command.scroll ScrollDir.down ∧
    (recognize_gesture sScrollW (FrameInput.hand fScrollDown)).1 ≠
      Command.scroll ScrollDir.up := by
  with_unfolding_all decide

/-- Witness for the amended scroll direction at a concrete upward hand move. -/
theorem scroll_direction_witness :
    (recognize_gesture sScrollW (FrameInput.hand fScrollDown)).1 =
      Command.scroll ScrollDir.down := by
  have h := scroll_direction sScrollW fScrollDown 100
    (by with_unfolding_all decide) (by with_unfolding_all decide)
    (by with_unfolding_all decide) (by with_unfolding_all decide)
    (by with_unfolding_all decide) (by with_unfolding_all decide)
    (by with_unfolding_all decide) (by with_unfolding_all decide)
    (by with_unfolding_all decide)
  exact h.1 (by with_unfolding_all decide)

/-- C5 (amended): on an OpenHand frame reaching the scroll branch with a
defined reference, the reference is left unchanged exactly when the
displacement does not exceed the threshold (the command is then None and the
whole state is unchanged); whenever the displacement exceeds the threshold
the reference is rewritten to the current palm Y even if the scroll cooldown
suppresses the Scroll command. -/
theorem swipe_ref_frame (s : GestureState) (f : Frame) (ry : ℚ)
    (hdp : detect_pinch f.fs = false) (hfi : detect_fist f.fs = false)
    (hio : detect_only_index_up f.fs = false)
    (hto : detect_thumb_index_open f.fs = false)
    (hoh : detect_open_hand f.fs = true) (hnp : s.is_pinching = false)
    (href : s.prev_open_hand_y = some ry) :
    ((-(f.frameH * SWIPE_THRESHOLD) ≤ ry - f.palmY * f.frameH ∧
      ry - f.palmY * f.frameH ≤ f.frameH * SWIPE_THRESHOLD) →
      recognize_gesture s (FrameInput.hand f) = (Command.none, s)) ∧
    ((ry - f.palmY * f.frameH > f.frameH * SWIPE_THRESHOLD ∨
      ry - f.palmY * f.frameH < -(f.frameH * SWIPE_THRESHOLD)) →
      ((recognize_gesture s (FrameInput.hand f)).2).prev_open_hand_y =
        some (f.palmY * f.frameH)) := by
  constructor
  · rintro ⟨hge, hle⟩
    have h1 : ¬(ry - f.palmY * f.frameH > f.frameH * SWIPE_THRESHOLD) := not_lt.2 hle
    have h2 : ¬(ry - f.palmY * f.frameH < -(f.frameH * SWIPE_THRESHOLD)) := not_lt.2 hge
    show recognizeHand s f = _
    unfold recognizeHand afterPinch openHandScroll detect_open_hand_swipe
    simp [hdp, hfi, hio, hto, hoh, hnp, href, h1, h2]
  · intro hd
    show ((recognizeHand s f).2).prev_open_hand_y = _
    unfold recognizeHand afterPinch openHandScroll detect_open_hand_swipe
    by_cases h1 : ry - f.palmY * f.frameH > f.frameH * SWIPE_THRESHOLD
    · by_cases hc : f.t - s.last_scroll_time > SCROLL_COOLDOWN <;>
        simp [hdp, hfi, hio, hto, hoh, hnp, href, h1, hc]
    · have h2 : ry - f.palmY * f.frameH < -(f.frameH * SWIPE_THRESHOLD) := by
        rcases hd with hd | hd
        · exact absurd hd h1
        · exact hd
      by_cases hc : f.t - s.last_scroll_time > SCROLL_COOLDOWN <;>
        simp [hdp, hfi, hio, hto, hoh, hnp, href, h1, h2, hc]

/-- Session state whose scroll cooldown is still pending at time one
hundred, with a swipe reference of one hundred. -/
def sScrollCooled : GestureState :=
  { prev_open_hand_y := some 100, last_click_time := 0,
    last_right_click_time := 0, last_scroll_time := 100,
    is_pinching := false, pinch_start_time := 0 }

/-- Counterexample to C5 as stated: the displacement exceeds the threshold
but the scroll cooldown is pending, so no Scroll is emitted, yet the
reference is rewritten from one hundred to fifty. -/
theorem swipe_ref_frame_cex :
    (recognize_gesture sScrollCooled (FrameInput.hand fScrollDown)).1 =
      Command.none ∧
    sScrollCooled.prev_open_hand_y = some 100 ∧
    ((recognize_gesture sScrollCooled (FrameInput.hand fScrollDown)).2).prev_open_hand_y =
      some 50 ∧
    (100 : ℚ) - fScrollDown.palmY * fScrollDown.frameH >
      fScrollDown.frameH * SWIPE_THRESHOLD := by
  with_unfolding_all decide

/-- Witness for the amended frame condition: the cooldown-suppressed frame
still rewrites the reference to the current palm Y. -/
theorem swipe_ref_frame_witness :
    ((recognize_gesture sScrollCooled (FrameInput.hand fScrollDown)).2).prev_open_hand_y =
      some (fScrollDown.palmY * fScrollDown.frameH) := by
  have h := swipe_ref_frame sScrollCooled fScrollDown 100
    (by with_unfolding_all decide) (by with_unfolding_all decide)
    (by with_unfolding_all decide) (by with_unfolding_all decide)
    (by with_unfolding_all decide) (by with_unfolding_all decide)
    (by with_unfolding_all decide)
  exact h.2 (Or.inl (by with_unfolding_all decide))

/-- C10 (amended): on the first OpenHand frame reaching the scroll branch
while openHandRefY is absent, the state machine only establishes the
reference, setting openHandRefY to the current palm Y and emitting None
regardless of how far the hand has moved; a later Scroll therefore needs a
second OpenHand frame, though not necessarily a consecutive one, since the
reference survives intervening non-OpenHand hand frames. -/
theorem open_hand_first_frame (s : GestureState) (f : Frame)
    (hdp : detect_pinch f.fs = false) (hfi : detect_fist f.fs = false)
    (hio : detect_only_index_up f.fs = false)
    (hto : detect_thumb_index_open f.fs = false)
    (hoh : detect_open_hand f.fs = true) (hnp : s.is_pinching = false)
    (href : s.prev_open_hand_y = Option.none) :
    recognize_gesture s (FrameInput.hand f) =
      (Command.none, { s with prev_open_hand_y := some (f.palmY * f.frameH) }) := by
  show recognizeHand s f = _
  unfold recognizeHand afterPinch openHandScroll detect_open_hand_swipe
  simp [hdp, hfi, hio, hto, hoh, hnp, href]

/-- First open-hand frame of the counterexample run, palm at pixel one
hundred. -/
def fOpen1 : Frame :=
  { t := 100, fs := fsOpenEdge, indexX := 1 / 2, indexY := 1 / 2,
    palmY := 100 / 480, frameW := 640, frameH := 480 }

/-- Intervening idle frame of the counterexample run. -/
def fIdle2 : Frame :=
  { t := 101, fs := fsIdleW, indexX := 1 / 2, indexY := 1 / 2,
    palmY := 100 / 480, frameW := 640, frameH := 480 }

/-- Final open-hand frame of the counterexample run, palm risen to pixel
fifty. -/
def fOpen3 : Frame :=
  { t := 102, fs := fsOpenEdge, indexX := 1 / 2, indexY := 1 / 2,
    palmY := 50 / 480, frameW := 640, frameH := 480 }

/-- Counterexample to the consecutiveness corollary of C10: a run whose
middle frame is not OpenHand still emits Scroll on the final OpenHand frame,
because the reference from the first frame survives; so a Scroll does not
require two consecutive OpenHand frames. -/
theorem open_hand_first_frame_cex :
    detect_open_hand fIdle2.fs = false ∧
    (runGesture sInit
        [FrameInput.hand fOpen1, FrameInput.hand fIdle2, FrameInput.hand fOpen3]).1 =
      [Command.none, Command.none, Command.scroll ScrollDir.down] := by
  with_unfolding_all decide

/-- Witness for the reference-establishing first OpenHand frame. -/
theorem open_hand_first_frame_witness :
    recognize_gesture sInit (FrameInput.hand fOpen1) =
      (Command.none, { sInit with prev_open_hand_y := some (fOpen1.palmY * fOpen1.frameH) }) := by
  exact open_hand_first_frame sInit fOpen1
    (by with_unfolding_all decide) (by with_unfolding_all decide)
    (by with_unfolding_all decide) (by with_unfolding_all decide)
    (by with_unfolding_all decide) (by with_unfolding_all decide)
    (by with_unfolding_all decide)

/-- C7 (amended): the main loop clears the stored smoothing coordinates
exactly on frames whose command is None; on frames emitting LeftPress,
LeftHold, LeftRelease, RightClick or Scroll the pointer mapper is not
invoked, but the previous smoothed coordinates are retained rather than
cleared. -/
theorem smoothing_reset_on_none (m : MouseState) (c : Command)
    (h : c = Command.left_press ∨ c = Command.left_hold ∨ c = Command.left_release ∨
      c = Command.right_click ∨ (∃ d, c = Command.scroll d)) :
    mainLoopMouseStep m c = m ∧
    (mainLoopMouseStep m Command.none).prev_mouse_x = Option.none ∧
    (mainLoopMouseStep m Command.none).prev_mouse_y = Option.none := by
  refine ⟨?_, rfl, rfl⟩
  rcases h with h | h | h | h | ⟨d, h⟩ <;> subst h
  · rfl
  · rfl
  · rfl
  · rfl
  · cases d <;> rfl

/-- Mouse state with stored smoothing coordinates five and seven. -/
def mSmooth : MouseState :=
  { screen_width := 1920, screen_height := 1080,
    prev_mouse_x := some 5, prev_mouse_y := some 7 }

/-- Counterexample to C7 as stated: a LeftHold frame does not invoke the
mapper, yet the previous smoothed coordinates survive instead of being
cleared. -/
theorem smoothing_reset_on_none_cex :
    mainLoopMouseStep mSmooth Command.left_hold = mSmooth ∧
    (mainLoopMouseStep mSmooth Command.left_hold).prev_mouse_x = some 5 ∧
    mSmooth.prev_mouse_x = some 5 := by
  with_unfolding_all decide

/-- Witness for the amended smoothing reset contract at a RightClick frame. -/
theorem smoothing_reset_on_none_witness :
    mainLoopMouseStep mSmooth Command.right_click = mSmooth ∧
    (mainLoopMouseStep mSmooth Command.none).prev_mouse_x = Option.none ∧
    (mainLoopMouseStep mSmooth Command.none).prev_mouse_y = Option.none :=
  smoothing_reset_on_none mSmooth Command.right_click
    (Or.inr (Or.inr (Or.inr (Or.inl rfl))))

/-- C9: starting from a reset smoothing state, the first call of the pointer
mapper returns the freshly mapped integer position unsmoothed, and a second
call with the identical hand position is a fixed point of the exponential
smoothing: it returns the same coordinates and the same state, so every later
identical frame repeats the first output. -/
theorem move_idempotent (m : MouseState) (hx hy fw fh : ℚ)
    (hpx : m.prev_mouse_x = Option.none) (hpy : m.prev_mouse_y = Option.none) :
    (move_mouse m hx hy fw fh).1 =
      (((map_coordinates m hx hy fw fh).1 : ℚ), ((map_coordinates m hx hy fw fh).2 : ℚ)) ∧
    move_mouse (move_mouse m hx hy fw fh).2 hx hy fw fh = move_mouse m hx hy fw fh := by
  have h1 : move_mouse m hx hy fw fh =
      ((((map_coordinates m hx hy fw fh).1 : ℚ), ((map_coordinates m hx hy fw fh).2 : ℚ)),
        { m with prev_mouse_x := some ((map_coordinates m hx hy fw fh).1 : ℚ),
                 prev_mouse_y := some ((map_coordinates m hx hy fw fh).2 : ℚ) }) := by
    unfold move_mouse smooth_coordinates
    simp [hpx, hpy]
  have hmap : map_coordinates
      { m with prev_mouse_x := some ((map_coordinates m hx hy fw fh).1 : ℚ),
               prev_mouse_y := some ((map_coordinates m hx hy fw fh).2 : ℚ) }
      hx hy fw fh = map_coordinates m hx hy fw fh := rfl
  have hs : ∀ x : ℚ, SMOOTH_FACTOR * x + (1 - SMOOTH_FACTOR) * x = x := by
    intro x
    unfold SMOOTH_FACTOR
    ring
  refine ⟨by rw [h1], ?_⟩
  rw [h1]
  unfold move_mouse smooth_coordinates
  simp [hmap, hs, Int.floor_intCast]

/-- Mouse state of the idempotence witness: full-HD screen, fresh smoothing
state. -/
def mFresh : MouseState :=
  { screen_width := 1920, screen_height := 1080,
    prev_mouse_x := Option.none, prev_mouse_y := Option.none }

/-- Witness for the idempotence of identical moves at a concrete sample. -/
theorem move_idempotent_witness :
    (move_mouse mFresh 320 240 640 480).1 =
      (((map_coordinates mFresh 320 240 640 480).1 : ℚ),
        ((map_coordinates mFresh 320 240 640 480).2 : ℚ)) ∧
    move_mouse (move_mouse mFresh 320 240 640 480).2 320 240 640 480 =
      move_mouse mFresh 320 240 640 480 :=
  move_idempotent mFresh 320 240 640 480 rfl rfl

end HandMouse
